import Mathlib

/-!
Shallow embedding of `custom_components/entsoe/sensor.py` (ENTSO-e price
sensor platform): the metric catalog `sensor_descriptions`, the entity
constructor's id derivation, and the `async_update` update/reschedule step,
together with theorems settling the specification claims.
-/

namespace Entsoe

/-- A Python value as it appears in the processed-data snapshot or as an
entity's native value: `null` (None), a number (modelled as an exact
rational), a pandas `Timestamp`, or a Python `datetime` (timestamps carry an
abstract integer instant). -/
inductive Value where
  | null
  | num (q : ℚ)
  | pdTimestamp (t : ℤ)
  | pyDatetime (t : ℤ)
deriving DecidableEq, Repr

/-- A price curve as stored under `prices_today` / `prices_tomorrow` /
`prices`: a list of (time instant, price) points.  The module only copies
these collections verbatim, so the exact point representation is irrelevant
to every claim. -/
abbrev PriceList := List (ℤ × ℚ)

/-- The coordinator's processed-data snapshot, a Python dict.  Each field is
`Option`-valued: `none` models an absent key (a lookup raises `KeyError`),
`some v` a present key with value `v` (which may itself be Python `None`,
i.e. `Value.null`). -/
structure Snapshot where
  current_price : Option Value := none
  next_hour_price : Option Value := none
  min_price : Option Value := none
  max_price : Option Value := none
  avg_price : Option Value := none
  time_min : Option Value := none
  time_max : Option Value := none
  prices_today : Option PriceList := none
  prices_tomorrow : Option PriceList := none
  prices : Option PriceList := none
deriving DecidableEq, Repr

/-- The Python exception raised by an extraction attempt: `keyError` for a
missing dict key, `typeError` for arithmetic on a null/non-numeric operand,
`zeroDivision` for division by numeric zero. -/
inductive ExtractError where
  | keyError
  | typeError
  | zeroDivision
deriving DecidableEq, Repr

/-- Round half to even (Python's rounding mode for `round`). -/
def roundHalfEven (q : ℚ) : ℤ :=
  let f := ⌊q⌋
  if q - f < 1/2 then f
  else if 1/2 < q - f then f + 1
  else if f % 2 = 0 then f else f + 1

/-- Python's `round(x, 1)`: round to one decimal digit, ties to even
(numbers are modelled as exact rationals). -/
def pyRound1 (q : ℚ) : ℚ := (roundHalfEven (q * 10) : ℚ) / 10

/-- Dict lookup `data[key]` on a snapshot field: raises `KeyError` when the
key is absent, otherwise returns the stored value. -/
def lookup (f : Option Value) : Except ExtractError Value :=
  match f with
  | none => .error .keyError
  | some v => .ok v

/-- `data["current_price"] / data["max_price"] * 100`, then `round(·, 1)`:
both lookups first (each may raise `KeyError`), then the division raises
`TypeError` unless both operands are numbers, and `ZeroDivisionError` when
the divisor is the number zero. -/
def pctOfMax (s : Snapshot) : Except ExtractError Value :=
  match lookup s.current_price with
  | .error e => .error e
  | .ok a =>
    match lookup s.max_price with
    | .error e => .error e
    | .ok b =>
      match a, b with
      | .num c, .num m =>
          if m = 0 then .error .zeroDivision
          else .ok (.num (pyRound1 (c / m * 100)))
      | _, _ => .error .typeError

/-- Sensor device class (only `timestamp` is used by this module). -/
inductive SensorDeviceClass where
  | timestamp
deriving DecidableEq, Repr

/-- Sensor state class (only `measurement` is used by this module). -/
inductive SensorStateClass where
  | measurement
deriving DecidableEq, Repr

/-- `homeassistant.const.PERCENTAGE`. -/
def PERCENTAGE : String := "%"

/-- `homeassistant.const.UnitOfEnergy.KILO_WATT_HOUR`. -/
def KILO_WATT_HOUR : String := "kWh"

/-- `EntsoeEntityDescription`: one metric definition of the catalog.  A
missing keyword argument in the Python dataclass call is `none` here; the
extraction function `value_fn` maps a snapshot to a value or an exception. -/
structure EntsoeEntityDescription where
  key : String
  name : String
  native_unit_of_measurement : Option String := none
  device_class : Option SensorDeviceClass := none
  state_class : Option SensorStateClass := none
  icon : Option String := none
  value_fn : Snapshot → Except ExtractError Value

/-- `sensor_descriptions(currency)`: the static, ordered metric catalog. -/
def sensor_descriptions (currency : String) : List EntsoeEntityDescription :=
  [ { key := "current_price"
      name := "Current electricity market price"
      native_unit_of_measurement := some (currency ++ "/" ++ KILO_WATT_HOUR)
      state_class := some .measurement
      value_fn := fun data => lookup data.current_price },
    { key := "next_hour_price"
      name := "Next hour electricity market price"
      native_unit_of_measurement := some (currency ++ "/" ++ KILO_WATT_HOUR)
      state_class := some .measurement
      value_fn := fun data => lookup data.next_hour_price },
    { key := "min_price"
      name := "Lowest energy price today"
      native_unit_of_measurement := some (currency ++ "/" ++ KILO_WATT_HOUR)
      state_class := some .measurement
      value_fn := fun data => lookup data.min_price },
    { key := "max_price"
      name := "Highest energy price today"
      native_unit_of_measurement := some (currency ++ "/" ++ KILO_WATT_HOUR)
      state_class := some .measurement
      value_fn := fun data => lookup data.max_price },
    { key := "avg_price"
      name := "Average electricity price today"
      native_unit_of_measurement := some (currency ++ "/" ++ KILO_WATT_HOUR)
      state_class := some .measurement
      value_fn := fun data => lookup data.avg_price },
    { key := "percentage_of_max"
      name := "Current percentage of highest electricity price today"
      native_unit_of_measurement := some PERCENTAGE
      icon := some "mdi:percent"
      state_class := some .measurement
      value_fn := pctOfMax },
    { key := "highest_price_time_today"
      name := "Time of highest price today"
      device_class := some .timestamp
      value_fn := fun data => lookup data.time_max },
    { key := "lowest_price_time_today"
      name := "Time of lowest price today"
      device_class := some .timestamp
      value_fn := fun data => lookup data.time_min } ]

/-- Modelled from the spec: the integration's domain constant `DOMAIN` is
imported from `.const`, whose file is not part of the sources; the spec and
the hard-coded `"entsoe."` prefix of `unique_id` identify it as `"entsoe"`.
(None of the id claims depend on its exact value.) -/
def DOMAIN : String := "entsoe"

/-- `self.entity_id` as set by `EntsoeSensor.__init__`: the domain, a dot,
the configured name, an underscore and the display name when a configured
name is present (non-empty); without a configured name the domain, a dot
and the display name. -/
def mkEntityId (name : String) (description : EntsoeEntityDescription) : String :=
  if name ≠ "" then DOMAIN ++ "." ++ name ++ "_" ++ description.name
  else DOMAIN ++ "." ++ description.name

/-- `self._attr_unique_id` as set by `EntsoeSensor.__init__`: the literal
prefix `entsoe.`, then the configured name, an underscore and the metric
key when a configured name is present (non-empty); without a configured
name the prefix followed directly by the metric key. -/
def mkUniqueId (name : String) (description : EntsoeEntityDescription) : String :=
  if name ≠ "" then "entsoe." ++ name ++ "_" ++ description.key
  else "entsoe." ++ description.key

/-- A UTC instant as a Python `datetime` (decomposed as `utcnow()` sees it):
an absolute count of whole hours since the epoch, plus the minute, second
and microsecond within that hour. -/
structure UtcTime where
  hour : ℕ
  minute : ℕ
  second : ℕ
  microsecond : ℕ
deriving DecidableEq, Repr

/-- `utcnow().replace(minute=0, second=0) + timedelta(hours=1)`: the wake-up
instant computed at line 189 of `sensor.py`.  `replace` zeroes only the
minute and the second; the microsecond of `now` is preserved. -/
def nextScheduled (now : UtcTime) : UtcTime :=
  ⟨now.hour + 1, 0, 0, now.microsecond⟩

/-- Modelled from the spec: `truncate_to_hour(now_utc) + 1 hour`, the exact
next clock-hour boundary (every component below the hour zeroed).  Stated
from the spec's words for comparison with `nextScheduled`. -/
def specNextHour (now : UtcTime) : UtcTime :=
  ⟨now.hour + 1, 0, 0, 0⟩

/-- The mutable per-entity state touched by `async_update`:
`_attr_native_value`, `_attr_extra_state_attributes` (`none` = never set),
`last_update_success`, and `_unsub_update` (the pending wake-up's timer id,
`none` when no wake-up is pending from this entity's point of view). -/
structure EntityState where
  native_value : Value
  extra_state_attributes : Option (PriceList × PriceList × PriceList)
  last_update_success : Bool
  unsub_update : Option ℕ
deriving DecidableEq, Repr

/-- The scheduler's view: the timers currently pending for this entity,
each a (timer id, scheduled instant) pair, plus the next fresh timer id.
`async_track_point_in_utc_time` registers a timer; calling the returned
unsubscribe handle removes it. -/
structure Sched where
  nextId : ℕ
  pending : List (ℕ × UtcTime)
deriving DecidableEq, Repr

/-- The state of a freshly constructed `EntsoeSensor`: `__init__` sets
`last_update_success = True` and `_unsub_update = None`; the native value
and extra attributes start as Python `None`/unset. -/
def initState : EntityState :=
  { native_value := .null
    extra_state_attributes := none
    last_update_success := true
    unsub_update := none }

/-- A scheduler with no pending timers. -/
def initSched : Sched := { nextId := 0, pending := [] }

/-- `value.to_pydatetime()` applied when `value` is a pandas `Timestamp`
(lines 160–161); every other value passes through unchanged. -/
def convertTimestamp : Value → Value
  | .pdTimestamp t => .pyDatetime t
  | v => v

/-- The `try`/`except` body of `async_update` (lines 155–178), run when the
coordinator holds a snapshot: apply `value_fn`, convert a pandas timestamp,
store the native value, capture the three price curves for the avg-price
metric when the stored value is non-null, and set `last_update_success`.
Any exception is absorbed with `last_update_success = False`; note the
native value has already been overwritten when the exception arises while
capturing the extra attributes. -/
def tryUpdate (description : EntsoeEntityDescription) (s : Snapshot)
    (st : EntityState) : EntityState :=
  match description.value_fn s with
  | .error _ => { st with last_update_success := false }
  | .ok v0 =>
    let v := convertTimestamp v0
    let st1 := { st with native_value := v }
    if description.key = "avg_price" ∧ st1.native_value ≠ Value.null then
      match s.prices_today with
      | none => { st1 with last_update_success := false }
      | some pt =>
        match s.prices_tomorrow with
        | none => { st1 with last_update_success := false }
        | some ptm =>
          match s.prices with
          | none => { st1 with last_update_success := false }
          | some pr =>
            { st1 with
                extra_state_attributes := some (pt, ptm, pr)
                last_update_success := true }
    else { st1 with last_update_success := true }

/-- `EntsoeSensor.async_update` (lines 150–190).  `data` is
`coordinator.data`/`processed_data()` collapsed into one `Option` (the
coordinator is an external collaborator; per the spec it exposes a null-or-
present snapshot).  When a snapshot is present the try/except body runs;
then — unconditionally — the currently pending wake-up, if any, is
cancelled and exactly one new wake-up is registered for
`nextScheduled now`. -/
def async_update (description : EntsoeEntityDescription) (data : Option Snapshot)
    (now : UtcTime) (st : EntityState) (sch : Sched) : EntityState × Sched :=
  let st1 := match data with
    | some s => tryUpdate description s st
    | none => st
  let sch1 := match st1.unsub_update with
    | some i => { sch with pending := sch.pending.filter (fun p => p.1 ≠ i) }
    | none => sch
  ({ st1 with unsub_update := some sch1.nextId },
   { nextId := sch1.nextId + 1,
     pending := sch1.pending ++ [(sch1.nextId, nextScheduled now)] })

deriving instance DecidableEq for Except

/-- The `needle` occurs verbatim (as a contiguous substring) in `hay`. -/
def strContains (hay needle : String) : Prop :=
  ∃ a b : List Char, hay.data = a ++ needle.data ++ b

/-- The eight metric keys of the catalog, in order. -/
def catalogKeys : List String :=
  ["current_price", "next_hour_price", "min_price", "max_price", "avg_price",
   "percentage_of_max", "highest_price_time_today", "lowest_price_time_today"]

/-- The eight metric display names of the catalog, in order. -/
def catalogNames : List String :=
  ["Current electricity market price", "Next hour electricity market price",
   "Lowest energy price today", "Highest energy price today",
   "Average electricity price today",
   "Current percentage of highest electricity price today",
   "Time of highest price today", "Time of lowest price today"]

/-- Scheduler/entity consistency: the entity's `_unsub_update` handle is in
sync with the timers actually pending — no pending timer without a handle,
and the handle points at the single pending timer, whose id is stale-free
(below the scheduler's next fresh id).  Holds for a fresh entity and is
preserved by every update. -/
def Inv (st : EntityState) (sch : Sched) : Prop :=
  match st.unsub_update with
  | none => sch.pending = []
  | some i => i < sch.nextId ∧ ∃ t, sch.pending = [(i, t)]

/-! ### Helper lemmas about the catalog, the id strings and the update step -/

/-- The catalog has exactly eight entries, for every currency. -/
lemma sensor_descriptions_length (c : String) : (sensor_descriptions c).length = 8 := rfl

/-- No catalog key extends another catalog key by an underscore-separated
prefix: no key ends in an underscore followed by a whole other key. -/
lemma keys_suffix_free :
    ∀ k1 ∈ catalogKeys, ∀ k2 ∈ catalogKeys, ¬ (('_' :: k1.data) <:+ k2.data) := by
  decide

/-- No catalog display name contains an underscore. -/
lemma names_no_underscore : ∀ n ∈ catalogNames, '_' ∉ n.data := by decide

/-- String concatenation concatenates the underlying character lists. -/
lemma data_append (a b : String) : (a ++ b).data = a.data ++ b.data := rfl

/-- Splitting at a separator is unambiguous when neither right part extends
the other across a further separator occurrence. -/
lemma sep_split {a b x y : List Char}
    (h : a ++ '_' :: x = b ++ '_' :: y)
    (hx : ¬ ('_' :: x) <:+ y) (hy : ¬ ('_' :: y) <:+ x) :
    a = b ∧ x = y := by
  have h1 : ('_' :: x) <:+ b ++ '_' :: y := h ▸ List.suffix_append a ('_' :: x)
  have h2 : ('_' :: y) <:+ b ++ '_' :: y := List.suffix_append b ('_' :: y)
  rcases List.suffix_or_suffix_of_suffix h1 h2 with hs | hs
  · rcases List.suffix_cons_iff.1 hs with heq | hs'
    · obtain ⟨rfl⟩ : x = y := by injection heq
      exact ⟨List.append_cancel_right h, rfl⟩
    · exact absurd hs' hx
  · rcases List.suffix_cons_iff.1 hs with heq | hs'
    · obtain ⟨rfl⟩ : y = x := by injection heq
      exact ⟨List.append_cancel_right h, rfl⟩
    · exact absurd hs' hy

/-- An underscore-headed list is no suffix of an underscore-free list. -/
lemma no_us_no_suffix {x y : List Char} (hy : '_' ∉ y) : ¬ ('_' :: x) <:+ y :=
  fun h => hy (h.subset (List.mem_cons_self _ _))

/-- Character decomposition of `mkUniqueId` for a non-empty configured name. -/
lemma mkUniqueId_data_ne (n : String) (d : EntsoeEntityDescription) (hn : n ≠ "") :
    (mkUniqueId n d).data = "entsoe.".data ++ (n.data ++ '_' :: d.key.data) := by
  simp [mkUniqueId, hn, data_append, List.append_assoc]

/-- Character decomposition of `mkUniqueId` for the empty configured name. -/
lemma mkUniqueId_data_empty (d : EntsoeEntityDescription) :
    (mkUniqueId "" d).data = "entsoe.".data ++ d.key.data := by
  simp [mkUniqueId, data_append]

/-- Character decomposition of `mkEntityId` for a non-empty configured name. -/
lemma mkEntityId_data_ne (n : String) (d : EntsoeEntityDescription) (hn : n ≠ "") :
    (mkEntityId n d).data = (DOMAIN ++ ".").data ++ (n.data ++ '_' :: d.name.data) := by
  simp [mkEntityId, hn, data_append, List.append_assoc]

/-- Character decomposition of `mkEntityId` for the empty configured name. -/
lemma mkEntityId_data_empty (d : EntsoeEntityDescription) :
    (mkEntityId "" d).data = (DOMAIN ++ ".").data ++ d.name.data := by
  simp [mkEntityId, data_append]

/-- Every catalog entry carries one of the eight catalog keys. -/
lemma key_mem {c : String} {d : EntsoeEntityDescription}
    (hd : d ∈ sensor_descriptions c) : d.key ∈ catalogKeys := by
  simp only [sensor_descriptions, List.mem_cons, List.not_mem_nil, or_false] at hd
  rcases hd with rfl | rfl | rfl | rfl | rfl | rfl | rfl | rfl <;> simp [catalogKeys]

/-- Every catalog entry carries one of the eight catalog display names. -/
lemma name_mem {c : String} {d : EntsoeEntityDescription}
    (hd : d ∈ sensor_descriptions c) : d.name ∈ catalogNames := by
  simp only [sensor_descriptions, List.mem_cons, List.not_mem_nil, or_false] at hd
  rcases hd with rfl | rfl | rfl | rfl | rfl | rfl | rfl | rfl <;> simp [catalogNames]

/-- Distinct configured names yield distinct unique ids, for any two catalog
metric keys. -/
lemma mkUniqueId_disjoint {n1 n2 : String} (hne : n1 ≠ n2)
    {d1 d2 : EntsoeEntityDescription}
    (hk1 : d1.key ∈ catalogKeys) (hk2 : d2.key ∈ catalogKeys) :
    mkUniqueId n1 d1 ≠ mkUniqueId n2 d2 := by
  intro h
  have hdata := congrArg String.data h
  by_cases h1 : n1 = "" <;> by_cases h2 : n2 = ""
  · exact hne (h1.trans h2.symm)
  · subst h1
    rw [mkUniqueId_data_empty, mkUniqueId_data_ne _ _ h2] at hdata
    have hk := List.append_cancel_left hdata
    exact keys_suffix_free _ hk2 _ hk1 (hk ▸ List.suffix_append _ _)
  · subst h2
    rw [mkUniqueId_data_ne _ _ h1, mkUniqueId_data_empty] at hdata
    have hk := List.append_cancel_left hdata
    exact keys_suffix_free _ hk1 _ hk2 (hk.symm ▸ List.suffix_append _ _)
  · rw [mkUniqueId_data_ne _ _ h1, mkUniqueId_data_ne _ _ h2] at hdata
    have hk := List.append_cancel_left hdata
    have hs := sep_split hk (keys_suffix_free _ hk1 _ hk2) (keys_suffix_free _ hk2 _ hk1)
    exact hne (String.ext hs.1)

/-- Distinct configured names yield distinct entity ids, for any two catalog
display names. -/
lemma mkEntityId_disjoint {n1 n2 : String} (hne : n1 ≠ n2)
    {d1 d2 : EntsoeEntityDescription}
    (hm1 : d1.name ∈ catalogNames) (hm2 : d2.name ∈ catalogNames) :
    mkEntityId n1 d1 ≠ mkEntityId n2 d2 := by
  intro h
  have hdata := congrArg String.data h
  have hu1 := names_no_underscore _ hm1
  have hu2 := names_no_underscore _ hm2
  by_cases h1 : n1 = "" <;> by_cases h2 : n2 = ""
  · exact hne (h1.trans h2.symm)
  · subst h1
    rw [mkEntityId_data_empty, mkEntityId_data_ne _ _ h2] at hdata
    have hk := List.append_cancel_left hdata
    exact no_us_no_suffix hu1 (hk ▸ List.suffix_append _ _)
  · subst h2
    rw [mkEntityId_data_ne _ _ h1, mkEntityId_data_empty] at hdata
    have hk := List.append_cancel_left hdata
    exact no_us_no_suffix hu2 (hk.symm ▸ List.suffix_append _ _)
  · rw [mkEntityId_data_ne _ _ h1, mkEntityId_data_ne _ _ h2] at hdata
    have hk := List.append_cancel_left hdata
    have hs := sep_split hk (no_us_no_suffix hu2) (no_us_no_suffix hu1)
    exact hne (String.ext hs.1)

/-- The try/except body never touches the wake-up handle. -/
lemma tryUpdate_unsub (d : EntsoeEntityDescription) (s : Snapshot) (st : EntityState) :
    (tryUpdate d s st).unsub_update = st.unsub_update := by
  unfold tryUpdate
  cases d.value_fn s with
  | error e => rfl
  | ok v =>
    dsimp only
    split
    · cases s.prices_today with
      | none => rfl
      | some pt =>
        cases s.prices_tomorrow with
        | none => rfl
        | some ptm =>
          cases s.prices with
          | none => rfl
          | some pr => rfl
    · rfl

/-- The first phase of the update (snapshot present or not) never touches
the wake-up handle. -/
lemma step1_data (d : EntsoeEntityDescription) (data : Option Snapshot) (st : EntityState) :
    (match data with | some s => tryUpdate d s st | none => st).unsub_update
      = st.unsub_update := by
  cases data with
  | none => rfl
  | some s => exact tryUpdate_unsub d s st

/-- From a consistent state, one update call leaves exactly the freshly
installed wake-up pending (scheduled at `nextScheduled now`), records its id
in the entity, and advances the fresh-id counter — for any coordinator data,
snapshot or null, and whether the extraction succeeds or fails. -/
lemma async_update_char (d : EntsoeEntityDescription) (data : Option Snapshot)
    (now : UtcTime) (st : EntityState) (sch : Sched) (h : Inv st sch) :
    (async_update d data now st sch).2.pending = [(sch.nextId, nextScheduled now)] ∧
    (async_update d data now st sch).1.unsub_update = some sch.nextId ∧
    (async_update d data now st sch).2.nextId = sch.nextId + 1 := by
  unfold async_update
  rcases hu : st.unsub_update with _ | i
  · unfold Inv at h
    rw [hu] at h
    simp [step1_data, hu, h]
  · unfold Inv at h
    rw [hu] at h
    obtain ⟨hlt, t, hp⟩ := h
    simp [step1_data, hu, hp, List.filter]

/-- The update step preserves consistency of handle and pending timers. -/
lemma async_update_inv (d : EntsoeEntityDescription) (data : Option Snapshot)
    (now : UtcTime) (st : EntityState) (sch : Sched) (h : Inv st sch) :
    Inv (async_update d data now st sch).1 (async_update d data now st sch).2 := by
  obtain ⟨hp, hu, hn⟩ := async_update_char d data now st sch h
  unfold Inv
  rw [hu, hp, hn]
  exact ⟨Nat.lt_succ_self _, _, rfl⟩

/-- The native value after an update is the one computed by the first phase. -/
lemma async_update_native (d : EntsoeEntityDescription) (data : Option Snapshot)
    (now : UtcTime) (st : EntityState) (sch : Sched) :
    (async_update d data now st sch).1.native_value
      = (match data with | some s => tryUpdate d s st | none => st).native_value := rfl

/-- The extra attributes after an update are the ones computed by the first
phase. -/
lemma async_update_attrs (d : EntsoeEntityDescription) (data : Option Snapshot)
    (now : UtcTime) (st : EntityState) (sch : Sched) :
    (async_update d data now st sch).1.extra_state_attributes
      = (match data with | some s => tryUpdate d s st | none => st).extra_state_attributes := rfl

/-- The success flag after an update is the one computed by the first phase. -/
lemma async_update_success (d : EntsoeEntityDescription) (data : Option Snapshot)
    (now : UtcTime) (st : EntityState) (sch : Sched) :
    (async_update d data now st sch).1.last_update_success
      = (match data with | some s => tryUpdate d s st | none => st).last_update_success := rfl

/-- When the extraction function raises, the try body only flips the
success flag: native value and extra attributes stay as they were. -/
lemma tryUpdate_error {d : EntsoeEntityDescription} {s : Snapshot} {e : ExtractError}
    (st : EntityState) (h : d.value_fn s = .error e) :
    tryUpdate d s st = { st with last_update_success := false } := by
  unfold tryUpdate
  rw [h]

/-- Timestamp conversion maps no non-null value to null. -/
lemma convertTimestamp_ne_null {v : Value} (h : v ≠ .null) : convertTimestamp v ≠ .null := by
  cases v <;> simp [convertTimestamp] at h ⊢

/-- When extraction succeeds for the avg-price metric but one of the three
price curves is missing, the try body has already overwritten the native
value before the exception flips the success flag; the extra attributes are
untouched. -/
lemma tryUpdate_capture_fail {d : EntsoeEntityDescription} {s : Snapshot} {v : Value}
    (st : EntityState) (h : d.value_fn s = .ok v) (hk : d.key = "avg_price")
    (hv : v ≠ .null)
    (hmiss : s.prices_today = none ∨ s.prices_tomorrow = none ∨ s.prices = none) :
    tryUpdate d s st = { st with native_value := convertTimestamp v,
                                 last_update_success := false } := by
  unfold tryUpdate
  rw [h]
  dsimp only
  rw [if_pos ⟨hk, convertTimestamp_ne_null hv⟩]
  rcases hpt : s.prices_today with _ | pt
  · rfl
  · rcases hptm : s.prices_tomorrow with _ | ptm
    · rfl
    · rcases hpr : s.prices with _ | pr
      · rfl
      · simp [hpt, hptm, hpr] at hmiss

/-- A fully successful avg-price update stores the converted value, captures
the three price curves verbatim and records success. -/
lemma tryUpdate_avg_ok {d : EntsoeEntityDescription} {s : Snapshot} {v : Value}
    {pt ptm pr : PriceList}
    (st : EntityState) (h : d.value_fn s = .ok v) (hk : d.key = "avg_price")
    (hv : v ≠ .null) (hpt : s.prices_today = some pt)
    (hptm : s.prices_tomorrow = some ptm) (hpr : s.prices = some pr) :
    tryUpdate d s st = { st with native_value := convertTimestamp v,
                                 extra_state_attributes := some (pt, ptm, pr),
                                 last_update_success := true } := by
  unfold tryUpdate
  rw [h]
  dsimp only
  rw [if_pos ⟨hk, convertTimestamp_ne_null hv⟩, hpt, hptm, hpr]

/-- For every metric other than avg-price the try body never touches the
extra attributes. -/
lemma tryUpdate_other {d : EntsoeEntityDescription} {s : Snapshot}
    (st : EntityState) (hk : d.key ≠ "avg_price") :
    (tryUpdate d s st).extra_state_attributes = st.extra_state_attributes := by
  unfold tryUpdate
  cases d.value_fn s with
  | error e => rfl
  | ok v =>
    dsimp only
    rw [if_neg (fun hc => hk hc.1)]

/-- When extraction returns null without raising, the try body stores null
and records success. -/
lemma tryUpdate_ok_null {d : EntsoeEntityDescription} {s : Snapshot}
    (st : EntityState) (h : d.value_fn s = .ok .null) :
    tryUpdate d s st = { st with native_value := .null,
                                 last_update_success := true } := by
  unfold tryUpdate
  rw [h]
  dsimp only
  rw [if_neg (fun hc => hc.2 rfl)]
  rfl

/-! ### Claim theorems -/

/-- C1 (amended): when the coordinator holds a snapshot and the extraction
attempt raises, availability becomes false, the extra attributes are left at
their last values, and the exception is absorbed (the update still completes
and installs the next wake-up).  The current value is left unchanged when
the extraction function itself raises; when the failure occurs while
capturing the avg-price extra attributes, the current value has already been
overwritten with the newly extracted value. -/
theorem c1_failure_isolated (d : EntsoeEntityDescription) (s : Snapshot)
    (st : EntityState) (sch : Sched) (now : UtcTime) (hinv : Inv st sch) :
    ((∃ e, d.value_fn s = .error e) →
       (async_update d (some s) now st sch).1.last_update_success = false ∧
       (async_update d (some s) now st sch).1.native_value = st.native_value ∧
       (async_update d (some s) now st sch).1.extra_state_attributes
         = st.extra_state_attributes) ∧
    (∀ v, d.value_fn s = .ok v → d.key = "avg_price" → v ≠ .null →
       (s.prices_today = none ∨ s.prices_tomorrow = none ∨ s.prices = none) →
       (async_update d (some s) now st sch).1.last_update_success = false ∧
       (async_update d (some s) now st sch).1.native_value = convertTimestamp v ∧
       (async_update d (some s) now st sch).1.extra_state_attributes
         = st.extra_state_attributes) ∧
    (async_update d (some s) now st sch).2.pending
      = [(sch.nextId, nextScheduled now)] := by
  refine ⟨?_, ?_, (async_update_char d (some s) now st sch hinv).1⟩
  · rintro ⟨e, he⟩
    rw [async_update_success, async_update_native, async_update_attrs]
    simp [tryUpdate_error st he]
  · intro v hv hk hnull hmiss
    rw [async_update_success, async_update_native, async_update_attrs]
    simp [tryUpdate_capture_fail st hv hk hnull hmiss]

/-- C1 counterexample: for the avg-price metric, a snapshot whose avg_price
is present but whose prices_today key is missing makes the update fail
(availability false) with the native value already overwritten — refuting
the claim that on any extraction exception the current value is left at the
value of the last successful update. -/
theorem c1_counterexample :
    (async_update ((sensor_descriptions "EUR").get
        ⟨4, by simp [sensor_descriptions_length]⟩)
        (some { avg_price := some (.num 2) }) ⟨12, 30, 0, 0⟩
        { initState with native_value := .num 1 } initSched).1.last_update_success
      = false ∧
    (async_update ((sensor_descriptions "EUR").get
        ⟨4, by simp [sensor_descriptions_length]⟩)
        (some { avg_price := some (.num 2) }) ⟨12, 30, 0, 0⟩
        { initState with native_value := .num 1 } initSched).1.native_value
      ≠ .num 1 := by
  decide

/-- C1 witness: the failure-isolation theorem applied at two concrete
inputs — a division-by-zero failure of the percentage metric (value
preserved) and a missing-price-curve failure of the avg-price metric (value
overwritten with the extracted 2). -/
theorem c1_witness :
    ((async_update ((sensor_descriptions "EUR").get
          ⟨5, by simp [sensor_descriptions_length]⟩)
        (some { current_price := some (.num 50), max_price := some (.num 0) })
        ⟨1, 2, 3, 4⟩ { initState with native_value := .num 7 }
        initSched).1.last_update_success = false ∧
     (async_update ((sensor_descriptions "EUR").get
          ⟨5, by simp [sensor_descriptions_length]⟩)
        (some { current_price := some (.num 50), max_price := some (.num 0) })
        ⟨1, 2, 3, 4⟩ { initState with native_value := .num 7 }
        initSched).1.native_value = Value.num 7 ∧
     (async_update ((sensor_descriptions "EUR").get
          ⟨5, by simp [sensor_descriptions_length]⟩)
        (some { current_price := some (.num 50), max_price := some (.num 0) })
        ⟨1, 2, 3, 4⟩ { initState with native_value := .num 7 }
        initSched).1.extra_state_attributes = none) ∧
    ((async_update ((sensor_descriptions "EUR").get
          ⟨4, by simp [sensor_descriptions_length]⟩)
        (some { avg_price := some (.num 2) })
        ⟨1, 2, 3, 4⟩ { initState with native_value := .num 7 }
        initSched).1.last_update_success = false ∧
     (async_update ((sensor_descriptions "EUR").get
          ⟨4, by simp [sensor_descriptions_length]⟩)
        (some { avg_price := some (.num 2) })
        ⟨1, 2, 3, 4⟩ { initState with native_value := .num 7 }
        initSched).1.native_value = convertTimestamp (.num 2) ∧
     (async_update ((sensor_descriptions "EUR").get
          ⟨4, by simp [sensor_descriptions_length]⟩)
        (some { avg_price := some (.num 2) })
        ⟨1, 2, 3, 4⟩ { initState with native_value := .num 7 }
        initSched).1.extra_state_attributes = none) := by
  have hinv : Inv { initState with native_value := Value.num 7 } initSched := rfl
  exact ⟨(c1_failure_isolated _ _ _ _ _ hinv).1 ⟨.zeroDivision, by decide⟩,
    (c1_failure_isolated _ _ _ _ _ hinv).2.1 (.num 2) rfl rfl (by decide)
      (Or.inl rfl)⟩

/-- C2: from a consistent state, an update that processed a snapshot cancels
the pending wake-up (if any) and installs exactly one new one, so after the
update exactly one wake-up is pending, and after two updates in direct
succession still exactly one — never two. -/
theorem c2_single_pending (d1 d2 : EntsoeEntityDescription) (s1 s2 : Snapshot)
    (now1 now2 : UtcTime) (st : EntityState) (sch : Sched) (h : Inv st sch) :
    (async_update d1 (some s1) now1 st sch).2.pending
        = [(sch.nextId, nextScheduled now1)] ∧
    (async_update d2 (some s2) now2 (async_update d1 (some s1) now1 st sch).1
        (async_update d1 (some s1) now1 st sch).2).2.pending
        = [(sch.nextId + 1, nextScheduled now2)] := by
  obtain ⟨hp1, hu1, hn1⟩ := async_update_char d1 (some s1) now1 st sch h
  have h2 := async_update_inv d1 (some s1) now1 st sch h
  obtain ⟨hp2, hu2, hn2⟩ := async_update_char d2 (some s2) now2 _ _ h2
  rw [hn1] at hp2
  exact ⟨hp1, hp2⟩

/-- C2 witness: two updates in direct succession on a fresh entity, each
leaving exactly one pending wake-up. -/
theorem c2_witness :
    Inv initState initSched ∧
    (async_update ((sensor_descriptions "EUR").get
        ⟨0, by simp [sensor_descriptions_length]⟩) (some {})
        ⟨5, 7, 8, 9⟩ initState initSched).2.pending = [(0, ⟨6, 0, 0, 9⟩)] ∧
    (async_update ((sensor_descriptions "EUR").get
        ⟨0, by simp [sensor_descriptions_length]⟩) (some {})
        ⟨6, 1, 2, 3⟩
        (async_update ((sensor_descriptions "EUR").get
          ⟨0, by simp [sensor_descriptions_length]⟩) (some {})
          ⟨5, 7, 8, 9⟩ initState initSched).1
        (async_update ((sensor_descriptions "EUR").get
          ⟨0, by simp [sensor_descriptions_length]⟩) (some {})
          ⟨5, 7, 8, 9⟩ initState initSched).2).2.pending = [(1, ⟨7, 0, 0, 3⟩)] :=
  ⟨rfl, c2_single_pending _ _ _ _ _ _ initState initSched rfl⟩

/-- C3 counterexample: an update call with null coordinator data, starting
from a state with one pending wake-up, removes that wake-up (a cancellation)
and leaves a newly scheduled one — refuting the claim that a null-data
update performs no cancellation and schedules nothing. -/
theorem c3_counterexample :
    (async_update ((sensor_descriptions "EUR").get
        ⟨0, by simp [sensor_descriptions_length]⟩) none
        ⟨4, 30, 2, 7⟩ { initState with unsub_update := some 0 }
        { nextId := 1, pending := [(0, ⟨3, 0, 0, 0⟩)] }).2.pending
      = [(1, ⟨5, 0, 0, 7⟩)] ∧
    (0, (⟨3, 0, 0, 0⟩ : UtcTime)) ∉
      (async_update ((sensor_descriptions "EUR").get
        ⟨0, by simp [sensor_descriptions_length]⟩) none
        ⟨4, 30, 2, 7⟩ { initState with unsub_update := some 0 }
        { nextId := 1, pending := [(0, ⟨3, 0, 0, 0⟩)] }).2.pending ∧
    (async_update ((sensor_descriptions "EUR").get
        ⟨0, by simp [sensor_descriptions_length]⟩) none
        ⟨4, 30, 2, 7⟩ { initState with unsub_update := some 0 }
        { nextId := 1, pending := [(0, ⟨3, 0, 0, 0⟩)] }).2.pending ≠ [] := by
  decide

/-- C3 (amended): the cancel-and-reschedule side effect occurs on every
update call, including when the coordinator data is null — such a call still
cancels the pending wake-up (if any) and schedules exactly one new one. -/
theorem c3_reschedule_unconditional (d : EntsoeEntityDescription) (now : UtcTime)
    (st : EntityState) (sch : Sched) (h : Inv st sch) :
    (async_update d none now st sch).2.pending = [(sch.nextId, nextScheduled now)] ∧
    (async_update d none now st sch).1.unsub_update = some sch.nextId := by
  obtain ⟨hp, hu, _⟩ := async_update_char d none now st sch h
  exact ⟨hp, hu⟩

/-- C3 witness: the amended theorem applied at a concrete state with one
pending wake-up and null coordinator data. -/
theorem c3_witness :
    Inv { initState with unsub_update := some 0 }
        { nextId := 1, pending := [(0, ⟨3, 0, 0, 0⟩)] } ∧
    (async_update ((sensor_descriptions "EUR").get
        ⟨0, by simp [sensor_descriptions_length]⟩) none
        ⟨4, 30, 2, 7⟩ { initState with unsub_update := some 0 }
        { nextId := 1, pending := [(0, ⟨3, 0, 0, 0⟩)] }).2.pending
      = [(1, ⟨5, 0, 0, 7⟩)] := by
  have hinv : Inv { initState with unsub_update := some 0 }
      { nextId := 1, pending := [(0, ⟨3, 0, 0, 0⟩)] } :=
    ⟨by decide, ⟨3, 0, 0, 0⟩, rfl⟩
  exact ⟨hinv, (c3_reschedule_unconditional _ ⟨4, 30, 2, 7⟩ _ _ hinv).1⟩

/-- C4 (code bug): at a current time with a non-zero microsecond component,
the wake-up the code schedules keeps that microsecond, so it differs from
the exact clock-hour boundary that both the spec and the comment in the
source (schedule at exactly the next whole hour sharp) promise:
`replace` is called with minute and second only, never zeroing the
microsecond. -/
theorem c4_microsecond_preserved :
    nextScheduled ⟨12, 30, 15, 500000⟩ = ⟨13, 0, 0, 500000⟩ ∧
    specNextHour ⟨12, 30, 15, 500000⟩ = ⟨13, 0, 0, 0⟩ ∧
    nextScheduled ⟨12, 30, 15, 500000⟩ ≠ specNextHour ⟨12, 30, 15, 500000⟩ ∧
    (async_update ((sensor_descriptions "EUR").get
        ⟨0, by simp [sensor_descriptions_length]⟩) none
        ⟨12, 30, 15, 500000⟩ initState initSched).2.pending
      = [(0, ⟨13, 0, 0, 500000⟩)] := by
  decide

/-- C5: calling update while the coordinator holds no snapshot leaves the
native value, the extra attributes and the availability flag unchanged from
their prior state — neither success nor failure is recorded for that tick. -/
theorem c5_null_data_frame (d : EntsoeEntityDescription) (now : UtcTime)
    (st : EntityState) (sch : Sched) :
    (async_update d none now st sch).1.native_value = st.native_value ∧
    (async_update d none now st sch).1.extra_state_attributes
      = st.extra_state_attributes ∧
    (async_update d none now st sch).1.last_update_success
      = st.last_update_success :=
  ⟨rfl, rfl, rfl⟩

/-- C6: the percentage-of-max catalog entry extracts
`round(current_price / max_price * 100, 1)` on every snapshot with numeric
operands and non-zero max price; the concrete snapshot with current 50 and
max 100 yields 50; every snapshot with a numeric-zero max price makes the
extraction raise (a ZeroDivisionError when the dividend is numeric) rather
than return a value. -/
theorem c6_percentage_of_max (c : String) :
    ((sensor_descriptions c).get ⟨5, by simp [sensor_descriptions_length]⟩).key
      = "percentage_of_max" ∧
    ((sensor_descriptions c).get ⟨5, by simp [sensor_descriptions_length]⟩).value_fn
      = pctOfMax ∧
    (∀ (s : Snapshot) (cq mq : ℚ), s.current_price = some (.num cq) →
       s.max_price = some (.num mq) → mq ≠ 0 →
       pctOfMax s = .ok (.num (pyRound1 (cq / mq * 100)))) ∧
    pctOfMax { current_price := some (.num 50), max_price := some (.num 100) }
      = .ok (.num 50) ∧
    (∀ s : Snapshot, s.max_price = some (.num 0) → ∃ e, pctOfMax s = .error e) ∧
    (∀ (s : Snapshot) (cq : ℚ), s.current_price = some (.num cq) →
       s.max_price = some (.num 0) → pctOfMax s = .error .zeroDivision) := by
  refine ⟨rfl, rfl, ?_, ?_, ?_, ?_⟩
  · intro s cq mq h1 h2 hm
    simp [pctOfMax, lookup, h1, h2, hm]
  · norm_num [pctOfMax, lookup, pyRound1, roundHalfEven]
  · intro s h2
    rcases h1 : s.current_price with _ | v
    · exact ⟨.keyError, by simp [pctOfMax, lookup, h1]⟩
    · cases v <;> simp [pctOfMax, lookup, h1, h2]
  · intro s cq h1 h2
    simp [pctOfMax, lookup, h1, h2]

/-- C6 witness: the formula and the zero-divisor failure evaluated at the
concrete snapshots of the claim. -/
theorem c6_witness :
    pctOfMax { current_price := some (.num 50), max_price := some (.num 100) }
      = .ok (.num 50) ∧
    pctOfMax { current_price := some (.num 50), max_price := some (.num 0) }
      = .error .zeroDivision :=
  ⟨(c6_percentage_of_max "EUR").2.2.2.1,
   (c6_percentage_of_max "EUR").2.2.2.2.2
     { current_price := some (.num 50), max_price := some (.num 0) } 50 rfl rfl⟩

/-- C7: a successful update of the avg-price metric with a non-null
extracted value stores the three price curves of the snapshot verbatim as
extra attributes, and an update of any metric whose key differs from
avg_price never changes the extra attributes (for any coordinator data). -/
theorem c7_extra_attributes (c : String) :
    ((sensor_descriptions c).get ⟨4, by simp [sensor_descriptions_length]⟩).key
      = "avg_price" ∧
    (∀ (s : Snapshot) (st : EntityState) (sch : Sched) (now : UtcTime)
       (v : Value) (pt ptm pr : PriceList),
       s.avg_price = some v → v ≠ .null →
       s.prices_today = some pt → s.prices_tomorrow = some ptm →
       s.prices = some pr →
       (async_update ((sensor_descriptions c).get
            ⟨4, by simp [sensor_descriptions_length]⟩)
          (some s) now st sch).1.extra_state_attributes = some (pt, ptm, pr) ∧
       (async_update ((sensor_descriptions c).get
            ⟨4, by simp [sensor_descriptions_length]⟩)
          (some s) now st sch).1.last_update_success = true) ∧
    (∀ d : EntsoeEntityDescription, d.key ≠ "avg_price" →
       ∀ (data : Option Snapshot) (st : EntityState) (sch : Sched) (now : UtcTime),
         (async_update d data now st sch).1.extra_state_attributes
           = st.extra_state_attributes) := by
  refine ⟨rfl, ?_, ?_⟩
  · intro s st sch now v pt ptm pr hv hnull hpt hptm hpr
    have hfn : ((sensor_descriptions c).get
        ⟨4, by simp [sensor_descriptions_length]⟩).value_fn s = .ok v := by
      show lookup s.avg_price = .ok v
      rw [hv]
      rfl
    have heq := tryUpdate_avg_ok st hfn rfl hnull hpt hptm hpr
    rw [async_update_attrs, async_update_success]
    show (tryUpdate _ s st).extra_state_attributes = _ ∧
      (tryUpdate _ s st).last_update_success = _
    rw [heq]
    exact ⟨rfl, rfl⟩
  · intro d hk data st sch now
    rw [async_update_attrs]
    cases data with
    | none => rfl
    | some s => exact tryUpdate_other st hk

/-- C7 witness: a successful avg-price update capturing the three curves,
and a current-price update leaving the attributes untouched. -/
theorem c7_witness :
    (async_update ((sensor_descriptions "EUR").get
        ⟨4, by simp [sensor_descriptions_length]⟩)
      (some { avg_price := some (.num 3), prices_today := some [(0, 1)],
              prices_tomorrow := some [(1, 2)], prices := some [(2, 3)] })
      ⟨9, 10, 11, 12⟩ initState initSched).1.extra_state_attributes
      = some ([(0, 1)], [(1, 2)], [(2, 3)]) ∧
    (async_update ((sensor_descriptions "EUR").get
        ⟨0, by simp [sensor_descriptions_length]⟩)
      (some { current_price := some (.num 3) })
      ⟨9, 10, 11, 12⟩ initState initSched).1.extra_state_attributes
      = initState.extra_state_attributes :=
  ⟨((c7_extra_attributes "EUR").2.1 _ initState initSched ⟨9, 10, 11, 12⟩
      (.num 3) [(0, 1)] [(1, 2)] [(2, 3)] rfl (by decide) rfl rfl rfl).1,
   (c7_extra_attributes "EUR").2.2 _ (by decide) _ initState initSched _⟩

/-- C8 counterexample: the percentage-of-max entry of the EUR catalog has
unit of measurement the percent sign, which does not contain the currency
code EUR, and the highest-price-time entry has no unit at all — refuting
the claim that every entry has a unit string containing the currency. -/
theorem c8_counterexample :
    ((sensor_descriptions "EUR").get
        ⟨5, by simp [sensor_descriptions_length]⟩).native_unit_of_measurement
      = some "%" ∧
    ¬ strContains "%" "EUR" ∧
    ((sensor_descriptions "EUR").get
        ⟨6, by simp [sensor_descriptions_length]⟩).native_unit_of_measurement
      = none := by
  refine ⟨rfl, ?_, rfl⟩
  rintro ⟨a, b, h⟩
  have hl := congrArg List.length h
  simp [List.length_append] at hl
  omega

/-- C8 (amended): only the five direct price-metric entries of
`sensor_descriptions(currency)` carry a unit containing the currency code
verbatim (the currency followed by a slash and kWh); the percentage entry
carries the percent sign and the two timestamp entries carry no unit. -/
theorem c8_units (c : String) :
    (∀ i : Fin 5,
      ((sensor_descriptions c).get
          ⟨i, by have := i.isLt; simp [sensor_descriptions_length]; omega⟩
        ).native_unit_of_measurement = some (c ++ "/" ++ KILO_WATT_HOUR)) ∧
    strContains (c ++ "/" ++ KILO_WATT_HOUR) c ∧
    ((sensor_descriptions c).get
        ⟨5, by simp [sensor_descriptions_length]⟩).native_unit_of_measurement
      = some PERCENTAGE ∧
    ((sensor_descriptions c).get
        ⟨6, by simp [sensor_descriptions_length]⟩).native_unit_of_measurement
      = none ∧
    ((sensor_descriptions c).get
        ⟨7, by simp [sensor_descriptions_length]⟩).native_unit_of_measurement
      = none := by
  refine ⟨?_, ⟨[], ("/" ++ KILO_WATT_HOUR).data, by simp [data_append]⟩, rfl, rfl, rfl⟩
  intro i
  match i with
  | ⟨0, _⟩ => rfl
  | ⟨1, _⟩ => rfl
  | ⟨2, _⟩ => rfl
  | ⟨3, _⟩ => rfl
  | ⟨4, _⟩ => rfl

/-- C9: entity id and unique id depend only on the configured name and the
metric display name / key (same inputs give identical ids), and for two
distinct configured names no catalog metric under one name can collide with
any catalog metric under the other, neither on entity id nor on unique id. -/
theorem c9_id_uniqueness :
    (∀ (n : String) (d1 d2 : EntsoeEntityDescription),
       d1.name = d2.name → d1.key = d2.key →
       mkEntityId n d1 = mkEntityId n d2 ∧ mkUniqueId n d1 = mkUniqueId n d2) ∧
    (∀ (c1 c2 n1 n2 : String), n1 ≠ n2 →
       ∀ d1 ∈ sensor_descriptions c1, ∀ d2 ∈ sensor_descriptions c2,
         mkEntityId n1 d1 ≠ mkEntityId n2 d2 ∧
         mkUniqueId n1 d1 ≠ mkUniqueId n2 d2) := by
  constructor
  · intro n d1 d2 hn hk
    constructor
    · simp [mkEntityId, hn]
    · simp [mkUniqueId, hk]
  · intro c1 c2 n1 n2 hne d1 h1 d2 h2
    exact ⟨mkEntityId_disjoint hne (name_mem h1) (name_mem h2),
           mkUniqueId_disjoint hne (key_mem h1) (key_mem h2)⟩

/-- C9 witness: two concrete configured names and two concrete catalog
entries with distinct ids. -/
theorem c9_witness :
    mkEntityId "home" ((sensor_descriptions "EUR").get
        ⟨0, by simp [sensor_descriptions_length]⟩)
      ≠ mkEntityId "office" ((sensor_descriptions "EUR").get
        ⟨3, by simp [sensor_descriptions_length]⟩) ∧
    mkUniqueId "home" ((sensor_descriptions "EUR").get
        ⟨0, by simp [sensor_descriptions_length]⟩)
      ≠ mkUniqueId "office" ((sensor_descriptions "EUR").get
        ⟨3, by simp [sensor_descriptions_length]⟩) :=
  c9_id_uniqueness.2 "EUR" "EUR" "home" "office" (by decide)
    _ (List.get_mem _ _ _) _ (List.get_mem _ _ _)

/-- C10: when the coordinator holds a snapshot and the extraction returns
null without raising, the update stores null as the native value —
overwriting whatever was held before — and records success (availability
true); retention of the previous value applies only to raising
extractions. -/
theorem c10_null_value_stored (d : EntsoeEntityDescription) (s : Snapshot)
    (st : EntityState) (sch : Sched) (now : UtcTime)
    (h : d.value_fn s = .ok .null) :
    (async_update d (some s) now st sch).1.native_value = .null ∧
    (async_update d (some s) now st sch).1.last_update_success = true := by
  have heq := tryUpdate_ok_null st h
  rw [async_update_native, async_update_success]
  show (tryUpdate _ s st).native_value = _ ∧ (tryUpdate _ s st).last_update_success = _
  rw [heq]
  exact ⟨rfl, rfl⟩

/-- C10 witness: a current-price update on a snapshot whose current_price
key holds null overwrites a previously held 42 with null and reports
success. -/
theorem c10_witness :
    (async_update ((sensor_descriptions "EUR").get
        ⟨0, by simp [sensor_descriptions_length]⟩)
      (some { current_price := some .null }) ⟨2, 3, 4, 5⟩
      { initState with native_value := .num 42 } initSched).1.native_value
      = .null ∧
    (async_update ((sensor_descriptions "EUR").get
        ⟨0, by simp [sensor_descriptions_length]⟩)
      (some { current_price := some .null }) ⟨2, 3, 4, 5⟩
      { initState with native_value := .num 42 } initSched).1.last_update_success
      = true :=
  c10_null_value_stored _ _ _ _ _ rfl

end Entsoe
